import Mathlib

/-!
# Verification of the student-management portal's aggregation and mutation layer

This file gives a shallow embedding, in Lean 4, of the report/aggregation
functions and mutation operations of the browser-based student-management
portal (admin/faculty dashboards, student dashboard), and proves the
specification's testable properties about them.

Conventions of the embedding:
* JavaScript numbers that hold marks are modelled as `ℚ`; counts as `ℕ`.
* `Math.round x` is modelled as `⌊x + 1/2⌋` (`jsRound`), which is the exact
  semantics of `Math.round` on non-negative reals.
* `Array.prototype.sort(cmp)` (a stable sort) is modelled by
  `List.mergeSort` with the boolean relation "cmp does not place b strictly
  before a".
* `String.prototype.localeCompare(_, undefined, { numeric: true })` is
  modelled by natural (alphanumeric) ordering: the string is split into
  maximal runs of digits and non-digits; digit runs compare by numeric
  value, non-digit runs compare by code units, and a digit run sorts before
  a non-digit run.
* `new Date("YYYY-MM-DD")` used only for comparison is modelled by the
  number formed by the digits of the date string (`dateNum`), which is
  order-isomorphic to the timestamp on well-formed ISO dates.
* A remote-store document write (`setDoc`) is modelled as an upsert on the
  in-memory collection keyed the same way as the store document key.
-/

namespace CSM

/-- Status of a class session (`'Available' | 'NoClass'`). -/
inductive SessionStatus where
  | Available
  | NoClass
deriving DecidableEq, Repr

/-- Attendance status (`'Present' | 'Absent' | 'Late' | 'Excused'`). -/
inductive AttStatus where
  | Present
  | Absent
  | Late
  | Excused
deriving DecidableEq, Repr

/-- A `students` document. `classId = ""` models a missing/unset class id
(the empty string is falsy in the JavaScript truthiness tests). -/
structure Student where
  studentId : String
  firstName : String
  lastName : String
  dob : String
  guardian : String
  phone : String
  email : String
  classId : String
  notes : String
deriving DecidableEq, Repr

/-- A `sessions` document. -/
structure Session where
  id : String
  date : String
  status : SessionStatus
  noClassReason : Option String
deriving DecidableEq, Repr

/-- An `attendance` document (store key `sessionId_studentId`). -/
structure AttendanceRecord where
  sessionId : String
  studentId : String
  classId : String
  status : AttStatus
deriving DecidableEq, Repr

/-- An `assessments` document. -/
structure Assessment where
  id : String
  name : String
  date : String
  totalMarks : ℚ
  classId : String
deriving DecidableEq, Repr

/-- A `scores` document (store key `assessmentId_studentId`); `marks = none`
models the JavaScript `null` ("not submitted"). -/
structure ScoreRecord where
  assessmentId : String
  studentId : String
  classId : String
  marks : Option ℚ
deriving DecidableEq, Repr

/-- A `classes` document. -/
structure SchoolClass where
  id : String
  name : String
deriving DecidableEq, Repr

/-- The mirrored collections (`DATA_MODELS` in the source). -/
structure DataModels where
  students : List Student
  sessions : List Session
  attendance : List AttendanceRecord
  assessments : List Assessment
  scores : List ScoreRecord
  classes : List SchoolClass
deriving DecidableEq, Repr

/-- `Math.round` on an exact rational: round half away from zero is
`⌊x + 1/2⌋` for the non-negative values that arise here. -/
def jsRound (q : ℚ) : ℤ := ⌊q + 1 / 2⌋

theorem jsRound_mono {q r : ℚ} (h : q ≤ r) : jsRound q ≤ jsRound r :=
  Int.floor_mono (by linarith)

theorem jsRound_natCast (n : ℕ) : jsRound (n : ℚ) = n := by
  unfold jsRound
  rw [Int.floor_eq_iff]
  constructor
  · push_cast; linarith
  · push_cast; linarith

/-! ## Stable sorting with a JavaScript comparator

`Array.prototype.sort(cmp)` with a consistent comparator is a stable sort;
we model it with `List.mergeSort` applied to the boolean relation
"`cmp a b ≤ 0`", i.e. "`a` is not strictly after `b`". -/

/-- The stable sort used to model `Array.prototype.sort`. -/
def jsSort {α : Type} (le : α → α → Bool) (l : List α) : List α :=
  List.mergeSort l le

/-! ## The `localeCompare(_, undefined, { numeric: true })` model

Strict lexicographic comparison of lists, parametrised by a strict
element comparison. -/

/-- Strict lexicographic order on lists induced by a boolean strict order
on elements: a proper prefix is smaller. -/
def lexLt {α : Type} (lt : α → α → Bool) : List α → List α → Bool
  | _, [] => false
  | [], _ :: _ => true
  | a :: as, b :: bs => lt a b || (!lt b a && lexLt lt as bs)

section LexLt

variable {α : Type} {lt : α → α → Bool}

theorem lt_irrefl_of_conn (Has : ∀ a b, lt a b = true → lt b a = false)
    (a : α) : lt a a = false := by
  cases h : lt a a with
  | false => rfl
  | true => exact absurd h (by simp [Has a a h])

theorem lexLt_irrefl (Has : ∀ a b, lt a b = true → lt b a = false) :
    ∀ l : List α, lexLt lt l l = false := by
  intro l
  induction l with
  | nil => rfl
  | cons a as ih =>
      simp only [lexLt, ih, lt_irrefl_of_conn Has a]
      rfl

theorem lexLt_trans
    (Htr : ∀ a b c, lt a b = true → lt b c = true → lt a c = true)
    (Hconn : ∀ a b, lt a b = false → lt b a = false → a = b) :
    ∀ l₁ l₂ l₃ : List α, lexLt lt l₁ l₂ = true → lexLt lt l₂ l₃ = true →
      lexLt lt l₁ l₃ = true := by
  intro l₁
  induction l₁ with
  | nil =>
      intro l₂ l₃ h12 h23
      cases l₃ with
      | nil => cases l₂ with
        | nil => exact h12
        | cons b bs => simp [lexLt] at h23
      | cons c cs => rfl
  | cons a as ih =>
      intro l₂ l₃ h12 h23
      cases l₂ with
      | nil => simp [lexLt] at h12
      | cons b bs =>
        cases l₃ with
        | nil => simp [lexLt] at h23
        | cons c cs =>
          simp only [lexLt, Bool.or_eq_true, Bool.and_eq_true,
            Bool.not_eq_true'] at h12 h23 ⊢
          rcases h12 with hab | ⟨hba, hrec12⟩
          · rcases h23 with hbc | ⟨hcb, hrec23⟩
            · exact Or.inl (Htr a b c hab hbc)
            · cases hbc : lt b c with
              | true => exact Or.inl (Htr a b c hab hbc)
              | false =>
                  have heq := Hconn b c hbc hcb
                  subst heq
                  exact Or.inl hab
          · rcases h23 with hbc | ⟨hcb, hrec23⟩
            · cases hab : lt a b with
              | true => exact Or.inl (Htr a b c hab hbc)
              | false =>
                  have heq := Hconn a b hab hba
                  subst heq
                  exact Or.inl hbc
            · cases hab : lt a b with
              | true =>
                  cases hbc : lt b c with
                  | true => exact Or.inl (Htr a b c hab hbc)
                  | false =>
                      have heq := Hconn b c hbc hcb
                      subst heq
                      exact Or.inl hab
              | false =>
                  have heq := Hconn a b hab hba
                  subst heq
                  exact Or.inr ⟨hcb, ih bs cs hrec12 hrec23⟩

theorem lexLt_conn
    (Hconn : ∀ a b, lt a b = false → lt b a = false → a = b) :
    ∀ l₁ l₂ : List α, lexLt lt l₁ l₂ = false → lexLt lt l₂ l₁ = false →
      l₁ = l₂ := by
  intro l₁
  induction l₁ with
  | nil =>
      intro l₂ h12 _
      cases l₂ with
      | nil => rfl
      | cons b bs => simp [lexLt] at h12
  | cons a as ih =>
      intro l₂ h12 h21
      cases l₂ with
      | nil => simp [lexLt] at h21
      | cons b bs =>
        simp only [lexLt, Bool.or_eq_false_iff, Bool.and_eq_false_iff,
          Bool.not_eq_false'] at h12 h21
        obtain ⟨hab, h12r⟩ := h12
        obtain ⟨hba, h21r⟩ := h21
        have heq := Hconn a b hab hba
        subst heq
        rcases h12r with h | h12rec
        · exact absurd hab (by simp [h])
        · rcases h21r with h | h21rec
          · exact absurd hab (by simp [h])
          · rw [ih bs h12rec h21rec]

end LexLt

/-- Strict comparison of characters by code unit. -/
def charLt (a b : Char) : Bool := decide (a < b)

theorem charLt_trans (a b c : Char) (h₁ : charLt a b = true)
    (h₂ : charLt b c = true) : charLt a c = true := by
  simp only [charLt, decide_eq_true_eq] at *
  exact lt_trans h₁ h₂

theorem charLt_conn (a b : Char) (h₁ : charLt a b = false)
    (h₂ : charLt b a = false) : a = b := by
  simp only [charLt, decide_eq_false_iff_not, not_lt] at *
  exact le_antisymm h₂ h₁

theorem charLt_asymm (a b : Char) (h : charLt a b = true) :
    charLt b a = false := by
  simp only [charLt, decide_eq_true_eq, decide_eq_false_iff_not, not_lt] at *
  exact le_of_lt h

/-- One chunk of a string under numeric-aware comparison: a maximal digit
run (by value) or a maximal non-digit run (by code units). -/
abbrev NatChunk : Type := ℕ ⊕ List Char

/-- Numeric value of a run of digit characters. -/
def digitsVal (cs : List Char) : ℕ :=
  cs.foldl (fun acc c => 10 * acc + (c.toNat - 48)) 0

/-- Split a character list into maximal runs of characters that agree on
`Char.isDigit`; each run is tagged with that common digit flag. -/
def charRuns : List Char → List (Bool × List Char)
  | [] => []
  | c :: cs =>
    match charRuns cs with
    | [] => [(c.isDigit, [c])]
    | (d, run) :: rest =>
      if c.isDigit = d then (d, c :: run) :: rest
      else (c.isDigit, [c]) :: (d, run) :: rest

/-- Split a character list into maximal digit / non-digit chunks, the model
of how `localeCompare` with `numeric: true` segments its input: a digit run
is interpreted by its numeric value. -/
def natChunks (cs : List Char) : List NatChunk :=
  (charRuns cs).map (fun p => if p.1 then Sum.inl (digitsVal p.2) else Sum.inr p.2)

/-- Strict order on chunks: digit runs compare numerically, non-digit runs
compare by code units, and a digit run sorts strictly before a non-digit
run. -/
def chunkLt : NatChunk → NatChunk → Bool
  | Sum.inl m, Sum.inl n => decide (m < n)
  | Sum.inl _, Sum.inr _ => true
  | Sum.inr _, Sum.inl _ => false
  | Sum.inr s, Sum.inr t => lexLt charLt s t

theorem chunkLt_trans (a b c : NatChunk) (h₁ : chunkLt a b = true)
    (h₂ : chunkLt b c = true) : chunkLt a c = true := by
  cases a <;> cases b <;> cases c <;>
    simp only [chunkLt, decide_eq_true_eq] at * <;> try trivial
  · omega
  · exact lexLt_trans charLt_trans charLt_conn _ _ _ h₁ h₂

theorem chunkLt_conn (a b : NatChunk) (h₁ : chunkLt a b = false)
    (h₂ : chunkLt b a = false) : a = b := by
  cases a <;> cases b <;>
    simp only [chunkLt, decide_eq_false_iff_not, not_lt] at * <;> try trivial
  · congr 1; omega
  · congr 1; exact lexLt_conn charLt_conn _ _ h₁ h₂

theorem chunkLt_asymm (a b : NatChunk) (h : chunkLt a b = true) :
    chunkLt b a = false := by
  cases a <;> cases b <;>
    simp only [chunkLt, decide_eq_true_eq, decide_eq_false_iff_not,
      not_lt] at * <;> try trivial
  · omega
  · cases h2 : lexLt charLt _ _ with
    | false => rfl
    | true =>
      have h3 := lexLt_trans charLt_trans charLt_conn _ _ _ h h2
      rw [lexLt_irrefl charLt_asymm] at h3
      simp at h3

/-- The numeric-aware sort key of a string: its chunk list. -/
def localeKey (s : String) : List NatChunk := natChunks s.data

/-- Model of the comparator `(a, b) => a.localeCompare(b, undefined,
{ numeric: true })` viewed as the relation "`a` is not strictly after `b`"
used by the stable sort. -/
def idLe (a b : String) : Bool := !lexLt chunkLt (localeKey b) (localeKey a)

theorem idLe_trans (a b c : String) (h₁ : idLe a b = true)
    (h₂ : idLe b c = true) : idLe a c = true := by
  simp only [idLe, Bool.not_eq_true'] at h₁ h₂ ⊢
  cases h : lexLt chunkLt (localeKey c) (localeKey a) with
  | false => rfl
  | true =>
    cases hbc : lexLt chunkLt (localeKey b) (localeKey c) with
    | true =>
      have h3 := lexLt_trans chunkLt_trans chunkLt_conn _ _ _ hbc h
      rw [h₁] at h3
      simp at h3
    | false =>
      have heq := lexLt_conn chunkLt_conn _ _ hbc h₂
      rw [← heq] at h
      rw [h₁] at h
      simp at h

theorem idLe_total (a b : String) : idLe a b = true ∨ idLe b a = true := by
  simp only [idLe, Bool.not_eq_true']
  cases h : lexLt chunkLt (localeKey b) (localeKey a) with
  | false => exact Or.inl rfl
  | true =>
    right
    cases h2 : lexLt chunkLt (localeKey a) (localeKey b) with
    | false => rfl
    | true =>
      have h3 := lexLt_trans chunkLt_trans chunkLt_conn _ _ _ h2 h
      rw [lexLt_irrefl chunkLt_asymm] at h3
      simp at h3

/-- Numeric-aware comparison of session dates: the model of the comparator
`(a, b) => new Date(a.date) - new Date(b.date)` on ISO `YYYY-MM-DD` strings
(the digit sequence of such a string is order-isomorphic to its timestamp). -/
def dateNum (s : String) : ℕ := digitsVal (s.data.filter Char.isDigit)

/-- The "not strictly after" relation induced by the date comparator. -/
def dateLe (a b : Session) : Bool := decide (dateNum a.date ≤ dateNum b.date)

/-! ## Aggregation / report engine -/

/-- `DATA_MODELS.sessions.filter(s => s.status === 'Available')`. -/
def availableSessions (dm : DataModels) : List Session :=
  dm.sessions.filter (fun s => s.status == SessionStatus.Available)

/-- `DATA_MODELS.attendance.filter(a => a.studentId === studentId)`
(from `generateStudentReport`). -/
def studentAttendance (dm : DataModels) (studentId : String) :
    List AttendanceRecord :=
  dm.attendance.filter (fun a => a.studentId == studentId)

/-- `studentAttendance.filter(a => a.status === 'Present' || a.status === 'Late').length`
(from `generateStudentReport`). -/
def reportPresentCount (dm : DataModels) (studentId : String) : ℕ :=
  ((studentAttendance dm studentId).filter
    (fun a => a.status == AttStatus.Present || a.status == AttStatus.Late)).length

/-- The attendance percentage of `generateStudentReport`:
`totalSessionsHeld > 0 ? Math.round((presentCount / totalSessionsHeld) * 100) : 0`. -/
def reportAttendancePercentage (dm : DataModels) (studentId : String) : ℤ :=
  let totalSessionsHeld := (availableSessions dm).length
  if 0 < totalSessionsHeld then
    jsRound ((reportPresentCount dm studentId : ℚ) / totalSessionsHeld * 100)
  else 0

/-- `DATA_MODELS.attendance.find(a => a.sessionId === sessionId && a.studentId === studentId)`,
the record lookup shared by the overall matrix, the day-wise report and the
attendance form. -/
def findRecord (dm : DataModels) (sessionId studentId : String) :
    Option AttendanceRecord :=
  dm.attendance.find? (fun a => a.sessionId == sessionId && a.studentId == studentId)

/-- A matrix cell: the found record status, defaulting to `'Absent'`. -/
def cellStatus (dm : DataModels) (sessionId studentId : String) : AttStatus :=
  match findRecord dm sessionId studentId with
  | some r => r.status
  | none => AttStatus.Absent

/-- The `Available` sessions sorted by date ascending
(`generateOverallAttendanceReport`). -/
def overallSessions (dm : DataModels) : List Session :=
  jsSort dateLe (availableSessions dm)

/-- All students sorted by numeric-aware `studentId`
(`generateOverallAttendanceReport`). -/
def overallStudents (dm : DataModels) : List Student :=
  jsSort (fun a b => idLe a.studentId b.studentId) dm.students

/-- One row of the overall attendance matrix: one cell per (sorted) session
and the trailing percentage `Math.round((presentCount / sessions.length) * 100)`,
where `presentCount` counts the `'Present'` and `'Late'` cells of the row. -/
structure OverallRow where
  studentId : String
  cells : List AttStatus
  percentage : ℤ
deriving DecidableEq, Repr

/-- Builds the row of one student in the overall attendance matrix. -/
def overallRow (dm : DataModels) (sessions : List Session) (stu : Student) :
    OverallRow :=
  let cells := sessions.map (fun s => cellStatus dm s.id stu.studentId)
  let presentCount :=
    (cells.filter (fun st => st == AttStatus.Present || st == AttStatus.Late)).length
  { studentId := stu.studentId
    cells := cells
    percentage := jsRound ((presentCount : ℚ) / sessions.length * 100) }

/-- `true` iff the (session, student) slot counts towards the overall
summary stats (`record && (record.status === 'Present' || record.status === 'Late')`). -/
def slotPresent (dm : DataModels) (sess : Session) (stu : Student) : Bool :=
  match findRecord dm sess.id stu.studentId with
  | some r => r.status == AttStatus.Present || r.status == AttStatus.Late
  | none => false

/-- The nested `students.forEach(... sessions.forEach(...))` counter of the
overall report stats. -/
def totalPresentCount (dm : DataModels) (students : List Student)
    (sessions : List Session) : ℕ :=
  (students.map (fun stu => (sessions.filter (fun sess => slotPresent dm sess stu)).length)).sum

/-- The overall attendance matrix with its summary stats. -/
structure OverallReport where
  totalStudents : ℕ
  totalSessions : ℕ
  classAverage : ℤ
  columns : List Session
  rows : List OverallRow
deriving DecidableEq, Repr

/-- `generateOverallAttendanceReport`: `none` models the early
`'No data available.'` return. -/
def generateOverallAttendanceReport (dm : DataModels) : Option OverallReport :=
  let sessions := overallSessions dm
  let students := overallStudents dm
  if sessions.length = 0 ∨ students.length = 0 then none
  else
    let totalPossibleSlots := students.length * sessions.length
    some
      { totalStudents := students.length
        totalSessions := sessions.length
        classAverage :=
          if 0 < totalPossibleSlots then
            jsRound ((totalPresentCount dm students sessions : ℚ) / totalPossibleSlots * 100)
          else 0
        columns := sessions
        rows := students.map (overallRow dm sessions) }

/-- One row of the day-wise report: a student together with the status shown
for them (`att ? att.status : 'Absent'`). -/
structure DaywiseRow where
  student : Student
  status : AttStatus
deriving DecidableEq, Repr

/-- The two buckets of `generateDaywiseAttendanceReport` for an `Available`
session: students whose status is `'Present'`, and everyone else, each
bucket sorted by numeric-aware student id. -/
def daywiseReport (dm : DataModels) (sessionId : String) :
    List DaywiseRow × List DaywiseRow :=
  let rows := dm.students.map
    (fun stu => { student := stu, status := cellStatus dm sessionId stu.studentId : DaywiseRow })
  let presentStudents := rows.filter (fun r => r.status == AttStatus.Present)
  let absentStudents := rows.filter (fun r => !(r.status == AttStatus.Present))
  (jsSort (fun a b => idLe a.student.studentId b.student.studentId) presentStudents,
   jsSort (fun a b => idLe a.student.studentId b.student.studentId) absentStudents)

/-- `DATA_MODELS.attendance.filter(a => a.studentId === id && (a.status === 'Present' || a.status === 'Late')).length`,
the per-student counter used by `renderDashboard` and `renderAnalyticsCharts`. -/
def allPresentLateCount (dm : DataModels) (studentId : String) : ℕ :=
  (dm.attendance.filter (fun a =>
    a.studentId == studentId &&
      (a.status == AttStatus.Present || a.status == AttStatus.Late))).length

/-- The admin dashboard average-attendance stat (`renderDashboard`): the
per-student percentages are rounded, summed, and the mean of the sum is
rounded again; `0%` when there are no students or no available sessions. -/
def dashboardAvgAttendance (dm : DataModels) : ℤ :=
  let avail := availableSessions dm
  if 0 < dm.students.length ∧ 0 < avail.length then
    let totalAttendance : ℤ :=
      (dm.students.map (fun stu =>
        jsRound ((allPresentLateCount dm stu.studentId : ℚ) / avail.length * 100))).sum
    if 0 < dm.students.length then
      jsRound ((totalAttendance : ℚ) / dm.students.length)
    else 0
  else 0

/-- The per-class bar of the analytics attendance chart
(`renderAnalyticsCharts`): `0` for an empty class, otherwise the rounded
mean of the per-student unrounded percentages. -/
def classAttendanceDatum (dm : DataModels) (cls : SchoolClass) : ℤ :=
  let avail := availableSessions dm
  let studentsInClass := dm.students.filter (fun s => s.classId == cls.id)
  if studentsInClass.length = 0 then 0
  else
    let totalPercentage : ℚ :=
      (studentsInClass.map (fun stu =>
        (allPresentLateCount dm stu.studentId : ℚ) / avail.length * 100)).sum
    jsRound (totalPercentage / studentsInClass.length)

/-- The analytics attendance chart data: one labelled bar per charted class;
nothing is charted when there are no available sessions. -/
def analyticsAttendanceChartData (dm : DataModels) (classFilter : Option String) :
    List (String × ℤ) :=
  let avail := availableSessions dm
  let classesToChart : List SchoolClass := match classFilter with
    | some cid => (dm.classes.find? (fun c => c.id == cid)).toList
    | none => dm.classes
  if 0 < avail.length then
    classesToChart.map (fun c => (c.name, classAttendanceDatum dm c))
  else []

/-- `DATA_MODELS.scores.filter(s => s.assessmentId === assessment.id && s.marks !== null)`
(from `renderAnalyticsCharts`). -/
def assessmentScores (dm : DataModels) (a : Assessment) : List ScoreRecord :=
  dm.scores.filter (fun s => s.assessmentId == a.id && !(s.marks == none))

/-- The analytics per-assessment class average: `none` models the `null`
chart point when no non-null score exists; each non-null score contributes
`marks / totalMarks * 100` when `totalMarks > 0` (else nothing), and the
mean over the non-null scores is rounded. -/
def assessmentAvgScore (dm : DataModels) (a : Assessment) : Option ℤ :=
  let scores := assessmentScores dm a
  if scores.length = 0 then none
  else
    let totalScore : ℚ :=
      (scores.map (fun s =>
        if 0 < a.totalMarks then (s.marks.getD 0) / a.totalMarks * 100 else 0)).sum
    some (jsRound (totalScore / scores.length))

/-- The shape handed to `renderMarksChart` (and built by
`generateStudentReport`): one assessment row of a student report. -/
structure AssessmentDetail where
  name : String
  date : String
  totalMarks : ℚ
  marks : Option ℚ
deriving DecidableEq

/-- The chart point of `renderMarksChart`:
`d.totalMarks > 0 && d.marks !== null ? Math.round(d.marks / d.totalMarks * 100) : null`. -/
def marksChartPercent (d : AssessmentDetail) : Option ℤ :=
  if 0 < d.totalMarks then
    d.marks.map (fun m => jsRound (m / d.totalMarks * 100))
  else none

/-- The `assessmentDetails` rows of `generateStudentReport`: each score of
the student joined against the assessments; a missing assessment renders as
`'Unknown'` with `totalMarks` forced to `0`, and the rows are sorted by
assessment date. -/
def assessmentDetails (dm : DataModels) (studentId : String) :
    List AssessmentDetail :=
  jsSort (fun a b => decide (dateNum a.date ≤ dateNum b.date))
    ((dm.scores.filter (fun s => s.studentId == studentId)).map (fun score =>
      match dm.assessments.find? (fun a => a.id == score.assessmentId) with
      | some a =>
          { name := a.name, date := a.date
            totalMarks := if 0 < a.totalMarks then a.totalMarks else 0
            marks := score.marks }
      | none =>
          { name := "Unknown", date := "", totalMarks := 0, marks := score.marks }))

/-! ## Student dashboard (`student.js`) -/

/-- One merged attendance item of the student dashboard: an attendance
record joined with the date of its (existing) session. -/
structure MergedAttendance where
  sessionId : String
  studentId : String
  classId : String
  status : AttStatus
  date : String
deriving DecidableEq, Repr

/-- `fetchStudentData`, attendance part: the student records whose
`sessionId` resolves in the sessions map are kept, merged with the session
date; records of unknown sessions are dropped. -/
def fetchAttendance (dm : DataModels) (studentId : String) :
    List MergedAttendance :=
  (dm.attendance.filter (fun a => a.studentId == studentId)).filterMap
    (fun a =>
      (dm.sessions.find? (fun s => s.id == a.sessionId)).map (fun sess =>
        { sessionId := a.sessionId, studentId := a.studentId
          classId := a.classId, status := a.status, date := sess.date }))

/-- One fetched score row of the student dashboard. -/
structure FetchedScore where
  marks : Option ℚ
  assessmentName : String
  date : String
  totalMarks : ℚ
deriving DecidableEq

/-- `fetchStudentData`, scores part: only score records whose
`assessmentId` resolves against an existing assessment are kept. -/
def fetchScores (dm : DataModels) (studentId : String) : List FetchedScore :=
  (dm.scores.filter (fun s => s.studentId == studentId)).filterMap
    (fun s =>
      (dm.assessments.find? (fun a => a.id == s.assessmentId)).map (fun a =>
        { marks := s.marks, assessmentName := a.name
          date := a.date, totalMarks := a.totalMarks }))

/-- The student dashboard attendance stat (`renderAttendance`):
`total > 0 ? Math.round((presentCount / total) * 100) : 0`, where the
denominator is the number of merged attendance rows. -/
def studentDashboardAttendanceStat (atts : List MergedAttendance) : ℤ :=
  let presentCount :=
    (atts.filter (fun a =>
      a.status == AttStatus.Present || a.status == AttStatus.Late)).length
  let total := atts.length
  if 0 < total then jsRound ((presentCount : ℚ) / total * 100) else 0

/-! ## Mutation / write layer -/

/-- A single remote-store document write (`setDoc` on one of the mirrored
collections). -/
inductive StoreWrite where
  | putStudent (s : Student)
  | putSession (s : Session)
  | putAttendance (a : AttendanceRecord)
  | putScore (s : ScoreRecord)
deriving DecidableEq, Repr

/-- Upsert of a student document keyed by `studentId`. -/
def upsertStudent (l : List Student) (s : Student) : List Student :=
  if l.any (fun t => t.studentId == s.studentId) then
    l.map (fun t => if t.studentId == s.studentId then s else t)
  else l ++ [s]

/-- Upsert of a session document keyed by its id. -/
def upsertSession (l : List Session) (s : Session) : List Session :=
  if l.any (fun t => t.id == s.id) then
    l.map (fun t => if t.id == s.id then s else t)
  else l ++ [s]

/-- Upsert of an attendance document keyed by `sessionId_studentId`. -/
def upsertAttendance (l : List AttendanceRecord) (a : AttendanceRecord) :
    List AttendanceRecord :=
  if l.any (fun t => t.sessionId == a.sessionId && t.studentId == a.studentId) then
    l.map (fun t =>
      if t.sessionId == a.sessionId && t.studentId == a.studentId then a else t)
  else l ++ [a]

/-- Upsert of a score document keyed by `assessmentId_studentId`. -/
def upsertScore (l : List ScoreRecord) (s : ScoreRecord) : List ScoreRecord :=
  if l.any (fun t => t.assessmentId == s.assessmentId && t.studentId == s.studentId) then
    l.map (fun t =>
      if t.assessmentId == s.assessmentId && t.studentId == s.studentId then s else t)
  else l ++ [s]

/-- Applying one document write to the store state. -/
def applyWrite (dm : DataModels) : StoreWrite → DataModels
  | StoreWrite.putStudent s => { dm with students := upsertStudent dm.students s }
  | StoreWrite.putSession s => { dm with sessions := upsertSession dm.sessions s }
  | StoreWrite.putAttendance a => { dm with attendance := upsertAttendance dm.attendance a }
  | StoreWrite.putScore s => { dm with scores := upsertScore dm.scores s }

/-- Applying a list of writes in order. -/
def applyWrites (dm : DataModels) (ws : List StoreWrite) : DataModels :=
  ws.foldl applyWrite dm

/-- The form fields read by `saveStudent` (all already trimmed). -/
structure StudentFormInput where
  studentIdInput : String
  firstName : String
  lastName : String
  dob : String
  guardian : String
  phone : String
  email : String
  notes : String
  classId : String
deriving DecidableEq

/-- `saveStudent`: the required-field validation throws before any write;
a valid input issues exactly one merge write keyed by the student id. -/
def saveStudent (inp : StudentFormInput) : List StoreWrite × Option String :=
  if inp.firstName = "" ∨ inp.lastName = "" ∨ inp.studentIdInput = "" ∨
      inp.guardian = "" ∨ inp.classId = "" then
    ([], some "Please fill in all required fields (*).")
  else
    ([StoreWrite.putStudent
        { studentId := inp.studentIdInput, firstName := inp.firstName
          lastName := inp.lastName, dob := inp.dob, guardian := inp.guardian
          phone := inp.phone, email := inp.email, classId := inp.classId
          notes := inp.notes }],
     none)

/-- `saveSession`: an empty date or a duplicate session date is rejected
before any write; otherwise one session document is written. `newId` models
the generated id. -/
def saveSession (sessions : List Session) (newId date : String)
    (status : SessionStatus) (reasonInput : String) :
    List StoreWrite × Option String :=
  let noClassReason : Option String :=
    if status = SessionStatus.NoClass then some reasonInput else none
  if date = "" then ([], some "Please select a date")
  else if sessions.any (fun s => s.date == date) then
    ([], some "A session already exists for this date")
  else
    ([StoreWrite.putSession
        { id := newId, date := date, status := status,
          noClassReason := noClassReason }],
     none)

/-- The trimmed value of one score input field: empty (saved as `null`),
non-numeric (`isNaN`), or a number. -/
inductive MarksField where
  | empty
  | invalid
  | num (q : ℚ)
deriving DecidableEq

/-- One row of the scores form. -/
structure ScoreInputRow where
  studentId : String
  field : MarksField
deriving DecidableEq

/-- `true` iff `saveScores` rejects this row
(`isNaN(marks) || marks < 0 || marks > assessment.totalMarks`). -/
def scoreRowInvalid (totalMarks : ℚ) (r : ScoreInputRow) : Bool :=
  match r.field with
  | MarksField.empty => false
  | MarksField.invalid => true
  | MarksField.num q => decide (q < 0) || decide (totalMarks < q)

/-- The parsed marks of a valid row (`null` for an empty field). -/
def scoreRowMarks (r : ScoreInputRow) : Option ℚ :=
  match r.field with
  | MarksField.empty => none
  | MarksField.invalid => none
  | MarksField.num q => some q

/-- The validation loop of `saveScores`: rows are validated in order and
collected into `toWrite`; the first invalid row aborts with an error and no
write is issued; when all rows validate, one score write per row is issued. -/
def saveScoresLoop (assessment : Assessment) (rows : List ScoreInputRow)
    (acc : List ScoreRecord) : List StoreWrite × Option String :=
  match rows with
  | [] => (acc.map StoreWrite.putScore, none)
  | r :: rest =>
    if scoreRowInvalid assessment.totalMarks r then
      ([], some ("Invalid score for " ++ r.studentId ++ "."))
    else
      saveScoresLoop assessment rest
        (acc ++ [{ assessmentId := assessment.id, studentId := r.studentId
                   classId := assessment.classId, marks := scoreRowMarks r }])

/-- `saveScores` for an assessment and the rows of its form. -/
def saveScores (assessment : Assessment) (rows : List ScoreInputRow) :
    List StoreWrite × Option String :=
  saveScoresLoop assessment rows []

/-! ## Attendance form (`renderAttendanceForm` / `saveAttendance`) -/

/-- One rendered row of the take-attendance form: the pre-selected status is
the existing record status, defaulting to `'Present'`. -/
structure AttendanceFormRow where
  studentId : String
  status : AttStatus
deriving DecidableEq, Repr

/-- `renderAttendanceForm`: all students sorted by numeric-aware id, each
with pre-selected status `existing ? existing.status : 'Present'`. -/
def renderAttendanceFormRows (dm : DataModels) (sessionId : String) :
    List AttendanceFormRow :=
  (jsSort (fun a b => idLe a.studentId b.studentId) dm.students).map
    (fun stu =>
      { studentId := stu.studentId
        status := match findRecord dm sessionId stu.studentId with
          | some r => r.status
          | none => AttStatus.Present })

/-- The admin `saveAttendance`: one attendance write per form row whose
student is found and has a (truthy) `classId`. -/
def saveAttendanceWrites (dm : DataModels) (sessionId : String)
    (rows : List AttendanceFormRow) : List StoreWrite :=
  rows.filterMap (fun row =>
    match dm.students.find? (fun s => s.studentId == row.studentId) with
    | some stu =>
        if stu.classId ≠ "" then
          some (StoreWrite.putAttendance
            { sessionId := sessionId, studentId := row.studentId
              classId := stu.classId, status := row.status })
        else none
    | none => none)

/-! ## Bulk operations (`importBulkAttendance`, `importCSV`) -/

/-- `const BATCH_SIZE = 450` of `importBulkAttendance`. -/
def BATCH_SIZE : ℕ := 450

/-- The chunking loop
`for (let i = 0; i < attendance.length; i += BATCH_SIZE) { ... attendance.slice(i, i + BATCH_SIZE) ... }`:
each chunk of at most 450 records becomes one atomic `writeBatch`. -/
def attendanceBatches (records : List AttendanceRecord) :
    List (List AttendanceRecord) :=
  if records.isEmpty then []
  else records.take BATCH_SIZE :: attendanceBatches (records.drop BATCH_SIZE)
termination_by records.length
decreasing_by
  rename_i h
  have hpos : 0 < records.length := by
    cases records with
    | nil => simp [List.isEmpty] at h
    | cons a as => exact Nat.succ_pos _
  simp only [List.length_drop, BATCH_SIZE]
  omega

/-- Atomically committing one batch: every record of the batch is upserted. -/
def applyBatch (dm : DataModels) (b : List AttendanceRecord) : DataModels :=
  b.foldl (fun acc r => applyWrite acc (StoreWrite.putAttendance r)) dm

/-- Sequentially committing batches where the batch at index `failAt`
(if any) fails: the failing batch commits nothing (a `writeBatch` is
atomic), the loop aborts, and everything committed before stays committed. -/
def commitBatchesWithFailure (dm : DataModels) :
    List (List AttendanceRecord) → ℕ → DataModels
  | [], _ => dm
  | _ :: _, 0 => dm
  | b :: bs, n + 1 => commitBatchesWithFailure (applyBatch dm b) bs n

/-- `importCSV`: `studentsToImport.map(student => setDoc(...))` — one
independent single-document write per student, fired in parallel; each
`setDoc` is its own commit unit, so the plan is a list of singleton units,
not 450-record batches. -/
def importCSVCommitUnits (students : List Student) : List (List StoreWrite) :=
  students.map (fun s => [StoreWrite.putStudent s])

/-! ## General helper lemmas -/

theorem jsSort_perm {α : Type} (le : α → α → Bool) (l : List α) :
    (jsSort le l).Perm l :=
  List.mergeSort_perm l le

/-- Appending one attendance record to the mirror, the model of one more
attendance record being added for a student. -/
def addAttendance (dm : DataModels) (r : AttendanceRecord) : DataModels :=
  { dm with attendance := dm.attendance ++ [r] }

/-- Appending one score record to the mirror. -/
def addScore (dm : DataModels) (s : ScoreRecord) : DataModels :=
  { dm with scores := dm.scores ++ [s] }

theorem availableSessions_addAttendance (dm : DataModels) (r : AttendanceRecord) :
    availableSessions (addAttendance dm r) = availableSessions dm := rfl

/-- Adding a `Present`/`Late` record of the student increments the
`generateStudentReport` present counter by one, whether or not the record
refers to an existing session. -/
theorem reportPresentCount_addAttendance (dm : DataModels)
    (r : AttendanceRecord) (studentId : String) (hsid : r.studentId = studentId)
    (hst : r.status = AttStatus.Present ∨ r.status = AttStatus.Late) :
    reportPresentCount (addAttendance dm r) studentId
      = reportPresentCount dm studentId + 1 := by
  unfold reportPresentCount studentAttendance addAttendance
  simp only [List.filter_append, List.length_append]
  congr 1
  have h1 : (r.studentId == studentId) = true := by simp [hsid]
  have h2 : (r.status == AttStatus.Present || r.status == AttStatus.Late) = true := by
    rcases hst with h | h <;> simp [h]
  simp [List.filter, h1, h2]

/-! ## C2 -/

/-- C2: for an empty session set the attendance percentage is `0` (not
`NaN`/`undefined`): the student-report percentage is `0` whenever there are
no `Available` sessions, and the student-dashboard stat is `0` whenever the
sessions collection is empty, because the division is guarded by a
positivity test in both places. -/
theorem C2_empty_session_set_percentage_zero (dm : DataModels) (studentId : String) :
    ((availableSessions dm).length = 0 → reportAttendancePercentage dm studentId = 0)
    ∧ (dm.sessions = [] →
        studentDashboardAttendanceStat (fetchAttendance dm studentId) = 0) := by
  constructor
  · intro h
    unfold reportAttendancePercentage
    simp [h]
  · intro h
    have hfetch : fetchAttendance dm studentId = [] := by
      unfold fetchAttendance
      rw [List.filterMap_eq_nil_iff]
      intro a _
      simp [h]
    rw [hfetch]
    rfl

/-- The store state used by the C2 witness: no sessions at all, but one
(orphaned) `Present` record, so the guard is actually exercised. -/
def dmC2 : DataModels :=
  { students := [{ studentId := "A1", firstName := "Ana", lastName := "B"
                   dob := "", guardian := "G", phone := "", email := ""
                   classId := "X", notes := "" }]
    sessions := []
    attendance := [{ sessionId := "s1", studentId := "A1", classId := "X"
                     status := AttStatus.Present }]
    assessments := []
    scores := []
    classes := [] }

/-- Witness for C2 at a concrete store with zero sessions. -/
theorem C2_empty_session_set_percentage_zero_witness :
    (availableSessions dmC2).length = 0 ∧ dmC2.sessions = [] ∧
      reportAttendancePercentage dmC2 "A1" = 0 ∧
      studentDashboardAttendanceStat (fetchAttendance dmC2 "A1") = 0 :=
  ⟨by decide, by decide,
   (C2_empty_session_set_percentage_zero dmC2 "A1").1 (by decide),
   (C2_empty_session_set_percentage_zero dmC2 "A1").2 (by decide)⟩

/-! ## C6 -/

/-- C6: with the session set fixed, adding one more `Present` or `Late`
record for the student (for a not-yet-recorded (session, student) pair)
never decreases the student-report attendance percentage. -/
theorem C6_attendance_percentage_monotone (dm : DataModels)
    (r : AttendanceRecord) (studentId : String)
    (hsid : r.studentId = studentId)
    (hst : r.status = AttStatus.Present ∨ r.status = AttStatus.Late)
    (_hnew : ∀ a ∈ dm.attendance,
      ¬(a.sessionId = r.sessionId ∧ a.studentId = r.studentId)) :
    reportAttendancePercentage dm studentId
      ≤ reportAttendancePercentage (addAttendance dm r) studentId := by
  unfold reportAttendancePercentage
  rw [availableSessions_addAttendance,
    reportPresentCount_addAttendance dm r studentId hsid hst]
  by_cases hn : 0 < (availableSessions dm).length
  · simp only [if_pos hn]
    apply jsRound_mono
    have hc : (reportPresentCount dm studentId : ℚ)
        ≤ ((reportPresentCount dm studentId + 1 : ℕ) : ℚ) := by
      push_cast
      linarith
    have hden : (0 : ℚ) ≤ ((availableSessions dm).length : ℚ)⁻¹ := by positivity
    rw [div_eq_mul_inv, div_eq_mul_inv]
    exact mul_le_mul_of_nonneg_right
      (mul_le_mul_of_nonneg_right hc hden) (by norm_num)
  · simp only [if_neg hn]
    exact le_refl 0

/-- The store used by the C6 witness: one available session, no record yet. -/
def dmC6 : DataModels :=
  { students := [{ studentId := "A1", firstName := "Ana", lastName := "B"
                   dob := "", guardian := "G", phone := "", email := ""
                   classId := "X", notes := "" }]
    sessions := [{ id := "s1", date := "2024-01-10"
                   status := SessionStatus.Available, noClassReason := none }]
    attendance := []
    assessments := []
    scores := []
    classes := [] }

/-- The record added by the C6 witness. -/
def recC6 : AttendanceRecord :=
  { sessionId := "s1", studentId := "A1", classId := "X"
    status := AttStatus.Present }

/-- Witness for C6: adding a `Present` record at a concrete store. -/
theorem C6_attendance_percentage_monotone_witness :
    recC6.studentId = "A1" ∧ recC6.status = AttStatus.Present ∧
      reportAttendancePercentage dmC6 "A1"
        ≤ reportAttendancePercentage (addAttendance dmC6 recC6) "A1" :=
  ⟨by decide, by decide,
   C6_attendance_percentage_monotone dmC6 recC6 "A1" (by decide)
     (Or.inl (by decide)) (by decide)⟩

/-! ## C5 -/

/-- C5: the assessment score percentage is `round(marks / totalMarks * 100)`
whenever `marks` is non-null and `totalMarks > 0`; a null-marks record
renders as "not submitted" (a `null` chart point) and is excluded from the
class average over any score set (adding a null-marks record never changes
the average, so null is not a score of 0); in particular `40` out of `50`
gives `80`. -/
theorem C5_score_percentage_and_null_exclusion :
    (∀ d : AssessmentDetail, 0 < d.totalMarks → ∀ m, d.marks = some m →
        marksChartPercent d = some (jsRound (m / d.totalMarks * 100)))
    ∧ (∀ d : AssessmentDetail, d.marks = none → marksChartPercent d = none)
    ∧ (∀ (dm : DataModels) (a : Assessment) (r : ScoreRecord), r.marks = none →
        assessmentAvgScore (addScore dm r) a = assessmentAvgScore dm a)
    ∧ marksChartPercent
        { name := "T1", date := "2024-02-01", totalMarks := 50, marks := some 40 }
        = some 80 := by
  refine ⟨?_, ?_, ?_, ?_⟩
  · intro d htot m hm
    unfold marksChartPercent
    rw [if_pos htot, hm]
    rfl
  · intro d hm
    unfold marksChartPercent
    rw [hm]
    simp
  · intro dm a r hr
    have hs : assessmentScores (addScore dm r) a = assessmentScores dm a := by
      unfold assessmentScores addScore
      simp only [List.filter_append]
      have hrf : (r.assessmentId == a.id && !(r.marks == none)) = false := by
        simp [hr]
      simp [List.filter, hrf]
    unfold assessmentAvgScore
    rw [hs]
  · unfold marksChartPercent
    norm_num [jsRound]

/-- The store used by the C5 witness: one graded score for assessment `t1`. -/
def dmC5 : DataModels :=
  { students := [], sessions := [], attendance := []
    assessments := [{ id := "t1", name := "T1", date := "2024-02-01"
                      totalMarks := 50, classId := "X" }]
    scores := [{ assessmentId := "t1", studentId := "A1"
                 classId := "X", marks := some 40 }]
    classes := [] }

/-- The assessment of the C5 witness. -/
def assessC5 : Assessment :=
  { id := "t1", name := "T1", date := "2024-02-01", totalMarks := 50, classId := "X" }

/-- The null-marks record added by the C5 witness. -/
def nullScoreC5 : ScoreRecord :=
  { assessmentId := "t1", studentId := "A2", classId := "X", marks := none }

/-- Witness for C5: the formula conjuncts applied at the `40` out of `50`
detail and at a concrete store where a null-marks record joins a graded one. -/
theorem C5_score_percentage_and_null_exclusion_witness :
    (0 : ℚ) < 50 ∧
      marksChartPercent
          { name := "T1", date := "2024-02-01", totalMarks := 50, marks := some 40 }
        = some (jsRound ((40 : ℚ) / 50 * 100)) ∧
      marksChartPercent
          { name := "T1", date := "2024-02-01", totalMarks := 50, marks := none }
        = none ∧
      assessmentAvgScore (addScore dmC5 nullScoreC5) assessC5
        = assessmentAvgScore dmC5 assessC5 :=
  ⟨by norm_num,
   C5_score_percentage_and_null_exclusion.1 _ (by norm_num) 40 rfl,
   C5_score_percentage_and_null_exclusion.2.1 _ rfl,
   C5_score_percentage_and_null_exclusion.2.2.1 _ _ _ rfl⟩

/-! ## C8 -/

/-- The validation loop of `saveScores` issues no write and reports an error
as soon as any row is invalid. -/
theorem saveScoresLoop_invalid (a : Assessment) :
    ∀ (rows : List ScoreInputRow) (acc : List ScoreRecord),
      (∃ r ∈ rows, scoreRowInvalid a.totalMarks r = true) →
      (saveScoresLoop a rows acc).1 = [] ∧
        (saveScoresLoop a rows acc).2.isSome = true := by
  intro rows
  induction rows with
  | nil =>
      intro acc hex
      simp at hex
  | cons r rest ih =>
      intro acc hex
      by_cases hr : scoreRowInvalid a.totalMarks r = true
      · unfold saveScoresLoop
        rw [if_pos hr]
        exact ⟨rfl, rfl⟩
      · have hex2 : ∃ x ∈ rest, scoreRowInvalid a.totalMarks x = true := by
          rcases hex with ⟨x, hx, hinv⟩
          rcases List.mem_cons.mp hx with rfl | hxr
          · exact absurd hinv hr
          · exact ⟨x, hxr, hinv⟩
        unfold saveScoresLoop
        rw [if_neg hr]
        exact ih _ hex2

/-- C8: every validation failure (missing required field in `saveStudent`,
out-of-range or non-numeric score in `saveScores`, empty or duplicate
session date in `saveSession`) returns an error before any remote-store
write is issued: the operation's write list is empty and applying it leaves
any store state unchanged. -/
theorem C8_validation_failure_issues_no_write :
    (∀ inp : StudentFormInput,
        (inp.firstName = "" ∨ inp.lastName = "" ∨ inp.studentIdInput = "" ∨
          inp.guardian = "" ∨ inp.classId = "") →
        (saveStudent inp).1 = [] ∧ (saveStudent inp).2.isSome = true ∧
          ∀ dm, applyWrites dm (saveStudent inp).1 = dm)
    ∧ (∀ (sessions : List Session) (newId date : String)
          (status : SessionStatus) (reasonInput : String),
        (date = "" ∨ ∃ s ∈ sessions, s.date = date) →
        (saveSession sessions newId date status reasonInput).1 = [] ∧
          (saveSession sessions newId date status reasonInput).2.isSome = true ∧
          ∀ dm, applyWrites dm (saveSession sessions newId date status reasonInput).1 = dm)
    ∧ (∀ (a : Assessment) (rows : List ScoreInputRow),
        (∃ r ∈ rows, scoreRowInvalid a.totalMarks r = true) →
        (saveScores a rows).1 = [] ∧ (saveScores a rows).2.isSome = true ∧
          ∀ dm, applyWrites dm (saveScores a rows).1 = dm) := by
  refine ⟨?_, ?_, ?_⟩
  · intro inp h
    unfold saveStudent
    rw [if_pos h]
    exact ⟨rfl, rfl, fun dm => rfl⟩
  · intro sessions newId date status reasonInput h
    unfold saveSession
    by_cases hd : date = ""
    · rw [if_pos hd]
      exact ⟨rfl, rfl, fun dm => rfl⟩
    · have hany : sessions.any (fun s => s.date == date) = true := by
        rcases h with h | ⟨s, hs, hdate⟩
        · exact absurd h hd
        · rw [List.any_eq_true]
          exact ⟨s, hs, by simp [hdate]⟩
      rw [if_neg hd, if_pos hany]
      exact ⟨rfl, rfl, fun dm => rfl⟩
  · intro a rows hex
    have h := saveScoresLoop_invalid a rows [] hex
    unfold saveScores
    exact ⟨h.1, h.2, fun dm => by rw [h.1]; rfl⟩

/-- The session list used by the C8 witness (a session on `2024-01-10`
already exists). -/
def sessionsC8 : List Session :=
  [{ id := "s1", date := "2024-01-10", status := SessionStatus.Available
     noClassReason := none }]

/-- The form input used by the C8 witness (first name missing). -/
def inpC8 : StudentFormInput :=
  { studentIdInput := "A1", firstName := "", lastName := "B", dob := ""
    guardian := "G", phone := "", email := "", notes := "", classId := "X" }

/-- The assessment and score rows used by the C8 witness (the second row is
non-numeric). -/
def assessC8 : Assessment :=
  { id := "t1", name := "T1", date := "2024-02-01", totalMarks := 50, classId := "X" }

/-- The score-form rows of the C8 witness. -/
def rowsC8 : List ScoreInputRow :=
  [{ studentId := "A1", field := MarksField.empty },
   { studentId := "A2", field := MarksField.invalid }]

/-- Witness for C8: all three validation failures at concrete inputs leave
an arbitrary concrete store unchanged. -/
theorem C8_validation_failure_issues_no_write_witness :
    inpC8.firstName = "" ∧
      (∃ s ∈ sessionsC8, s.date = "2024-01-10") ∧
      (∃ r ∈ rowsC8, scoreRowInvalid assessC8.totalMarks r = true) ∧
      (saveStudent inpC8).1 = [] ∧ (saveStudent inpC8).2.isSome = true ∧
      (saveSession sessionsC8 "s2" "2024-01-10" SessionStatus.Available "").1 = [] ∧
      (saveSession sessionsC8 "s2" "2024-01-10" SessionStatus.Available "").2.isSome = true ∧
      (saveScores assessC8 rowsC8).1 = [] ∧
      (saveScores assessC8 rowsC8).2.isSome = true :=
  ⟨by decide, by decide, ⟨{ studentId := "A2", field := MarksField.invalid },
      by decide, by decide⟩,
   (C8_validation_failure_issues_no_write.1 inpC8 (Or.inl (by decide))).1,
   (C8_validation_failure_issues_no_write.1 inpC8 (Or.inl (by decide))).2.1,
   (C8_validation_failure_issues_no_write.2.1 sessionsC8 "s2" "2024-01-10"
      SessionStatus.Available "" (Or.inr ⟨sessionsC8.head (by decide), by decide, by decide⟩)).1,
   (C8_validation_failure_issues_no_write.2.1 sessionsC8 "s2" "2024-01-10"
      SessionStatus.Available "" (Or.inr ⟨sessionsC8.head (by decide), by decide, by decide⟩)).2.1,
   (C8_validation_failure_issues_no_write.2.2 assessC8 rowsC8
      ⟨{ studentId := "A2", field := MarksField.invalid }, by decide, by decide⟩).1,
   (C8_validation_failure_issues_no_write.2.2 assessC8 rowsC8
      ⟨{ studentId := "A2", field := MarksField.invalid }, by decide, by decide⟩).2.1⟩

/-! ## C10 -/

/-- In a student list with pairwise-distinct ids, looking a member up by its
own id finds exactly that member. -/
theorem find_self_of_nodup (students : List Student)
    (hnd : (students.map Student.studentId).Nodup)
    (stu : Student) (hmem : stu ∈ students) :
    students.find? (fun s => s.studentId == stu.studentId) = some stu := by
  induction students with
  | nil => cases hmem
  | cons t rest ih =>
      rw [List.map_cons, List.nodup_cons] at hnd
      rcases List.mem_cons.mp hmem with rfl | hrest
      · rw [List.find?_cons_of_pos]
        simp
      · have hne : (t.studentId == stu.studentId) = false := by
          rw [beq_eq_false_iff_ne]
          intro heq
          exact hnd.1 (heq ▸ List.mem_map_of_mem Student.studentId hrest)
        rw [List.find?_cons_of_neg rest (by simp [hne])]
        exact ih hnd.2 hrest

/-- C10: in the take-attendance form every student with no existing record
for the selected session is pre-selected `Present`; saving the form issues
one attendance write per listed student that has a classId, so an untouched
form records every unrecorded (classId-bearing) student as `Present` —
while every report computation defaults a missing record to `Absent`. -/
theorem C10_attendance_form_defaults_present (dm : DataModels)
    (sessionId : String)
    (hnd : (dm.students.map Student.studentId).Nodup) :
    (∀ stu ∈ dm.students, findRecord dm sessionId stu.studentId = none →
        ({ studentId := stu.studentId, status := AttStatus.Present } : AttendanceFormRow)
          ∈ renderAttendanceFormRows dm sessionId)
    ∧ (∀ stu ∈ dm.students, stu.classId ≠ "" →
        findRecord dm sessionId stu.studentId = none →
        StoreWrite.putAttendance
          { sessionId := sessionId, studentId := stu.studentId
            classId := stu.classId, status := AttStatus.Present }
          ∈ saveAttendanceWrites dm sessionId (renderAttendanceFormRows dm sessionId))
    ∧ (∀ sid, findRecord dm sessionId sid = none →
        cellStatus dm sessionId sid = AttStatus.Absent) := by
  have hrow : ∀ stu ∈ dm.students, findRecord dm sessionId stu.studentId = none →
      ({ studentId := stu.studentId, status := AttStatus.Present } : AttendanceFormRow)
        ∈ renderAttendanceFormRows dm sessionId := by
    intro stu hmem hrec
    unfold renderAttendanceFormRows
    have hmem2 : stu ∈ jsSort (fun a b => idLe a.studentId b.studentId) dm.students :=
      ((jsSort_perm _ dm.students).mem_iff).mpr hmem
    refine List.mem_map.mpr ⟨stu, hmem2, ?_⟩
    rw [hrec]
  refine ⟨hrow, ?_, ?_⟩
  · intro stu hmem hcls hrec
    unfold saveAttendanceWrites
    refine List.mem_filterMap.mpr
      ⟨{ studentId := stu.studentId, status := AttStatus.Present },
       hrow stu hmem hrec, ?_⟩
    rw [find_self_of_nodup dm.students hnd stu hmem]
    simp only [hcls]
    rw [if_pos hcls]
  · intro sid hrec
    unfold cellStatus
    rw [hrec]

/-- The store used by the C10 witness: two students (ids out of order), an
available session, and no attendance yet. -/
def dmC10 : DataModels :=
  { students := [{ studentId := "A10", firstName := "Ana", lastName := "B"
                   dob := "", guardian := "G", phone := "", email := ""
                   classId := "X", notes := "" },
                 { studentId := "A2", firstName := "Bo", lastName := "C"
                   dob := "", guardian := "G", phone := "", email := ""
                   classId := "X", notes := "" }]
    sessions := [{ id := "s1", date := "2024-01-10"
                   status := SessionStatus.Available, noClassReason := none }]
    attendance := []
    assessments := []
    scores := []
    classes := [] }

/-- Witness for C10 at a concrete store with no records for the session. -/
theorem C10_attendance_form_defaults_present_witness :
    (dmC10.students.map Student.studentId).Nodup ∧
      (∀ stu ∈ dmC10.students, findRecord dmC10 "s1" stu.studentId = none →
        ({ studentId := stu.studentId, status := AttStatus.Present } : AttendanceFormRow)
          ∈ renderAttendanceFormRows dmC10 "s1") ∧
      (∀ stu ∈ dmC10.students, stu.classId ≠ "" →
        findRecord dmC10 "s1" stu.studentId = none →
        StoreWrite.putAttendance
          { sessionId := "s1", studentId := stu.studentId
            classId := stu.classId, status := AttStatus.Present }
          ∈ saveAttendanceWrites dmC10 "s1" (renderAttendanceFormRows dmC10 "s1")) :=
  ⟨by decide,
   (C10_attendance_form_defaults_present dmC10 "s1" (by decide)).1,
   (C10_attendance_form_defaults_present dmC10 "s1" (by decide)).2.1⟩

/-! ## C7 -/

/-- Every batch produced by the chunking loop holds at most 450 records,
and the batches concatenate back to the input. -/
theorem attendanceBatches_join_and_bound (records : List AttendanceRecord) :
    (∀ b ∈ attendanceBatches records, b.length ≤ BATCH_SIZE) ∧
      (attendanceBatches records).flatten = records := by
  induction records using attendanceBatches.induct with
  | case1 records hempty =>
      rw [attendanceBatches, if_pos hempty]
      constructor
      · intro b hb
        exact absurd hb (List.not_mem_nil b)
      · rw [List.flatten_nil]
        cases records with
        | nil => rfl
        | cons a as => simp [List.isEmpty] at hempty
  | case2 records hempty ih =>
      rw [attendanceBatches, if_neg hempty]
      constructor
      · intro b hb
        rcases List.mem_cons.mp hb with rfl | hb2
        · exact List.length_take_le _ _
        · exact ih.1 b hb2
      · rw [List.flatten_cons, ih.2]
        exact List.take_append_drop _ _

/-- A 500-record bulk attendance import is chunked into exactly the two
batches `take 450` and `drop 450`, of sizes 450 and 50. -/
theorem attendanceBatches_of_length_500 (records : List AttendanceRecord)
    (h : records.length = 500) :
    attendanceBatches records = [records.take 450, records.drop 450] ∧
      (attendanceBatches records).map List.length = [450, 50] := by
  have hne1 : records.isEmpty = false := by
    cases records with
    | nil => simp at h
    | cons a as => rfl
  have hlen_drop : (records.drop 450).length = 50 := by
    rw [List.length_drop, h]
  have hne2 : (records.drop 450).isEmpty = false := by
    cases hd : records.drop 450 with
    | nil => rw [hd] at hlen_drop; simp at hlen_drop
    | cons a as => rfl
  have hdd : (records.drop 450).drop 450 = [] :=
    List.eq_nil_of_length_eq_zero (by rw [List.length_drop, hlen_drop])
  have htake2 : (records.drop 450).take 450 = records.drop 450 :=
    List.take_of_length_le (by rw [hlen_drop]; norm_num)
  have hbatches : attendanceBatches records = [records.take 450, records.drop 450] := by
    rw [attendanceBatches, if_neg (by simp [hne1])]
    simp only [BATCH_SIZE]
    rw [attendanceBatches, if_neg (by simp [hne2])]
    simp only [BATCH_SIZE]
    rw [htake2, attendanceBatches, hdd]
    rfl
  refine ⟨hbatches, ?_⟩
  rw [hbatches]
  simp only [List.map_cons, List.map_nil, List.length_take, h, hlen_drop]
  rfl

/-- C7 (amended): the bulk attendance import commits its attendance records
as atomic batches of at most 450 writes; 500 records split into exactly the
two batches 450 + 50; a failure while committing batch `N` leaves every
batch before `N` committed (no cross-chunk rollback) — but the CSV import
issues one independent single-document write per student (a parallel
`setDoc` per record), not 450-record batches. -/
theorem C7_bulk_batching_amended :
    (∀ records : List AttendanceRecord,
        (∀ b ∈ attendanceBatches records, b.length ≤ BATCH_SIZE) ∧
          (attendanceBatches records).flatten = records)
    ∧ (∀ records : List AttendanceRecord, records.length = 500 →
        attendanceBatches records = [records.take 450, records.drop 450] ∧
          (attendanceBatches records).map List.length = [450, 50])
    ∧ (∀ (dm : DataModels) (records : List AttendanceRecord),
        records.length = 500 →
        commitBatchesWithFailure dm (attendanceBatches records) 1
          = applyBatch dm (records.take 450))
    ∧ (∀ students : List Student,
        importCSVCommitUnits students = students.map (fun s => [StoreWrite.putStudent s]) ∧
          ∀ u ∈ importCSVCommitUnits students, u.length = 1) := by
  refine ⟨attendanceBatches_join_and_bound, attendanceBatches_of_length_500, ?_, ?_⟩
  · intro dm records h
    rw [(attendanceBatches_of_length_500 records h).1]
    rfl
  · intro students
    refine ⟨rfl, ?_⟩
    intro u hu
    rcases List.mem_map.mp hu with ⟨s, _, rfl⟩
    rfl

/-- A concrete attendance record, one per index. -/
def mkAttC7 (i : ℕ) : AttendanceRecord :=
  { sessionId := "2024-01-10", studentId := toString i, classId := "X"
    status := AttStatus.Present }

/-- The 500 attendance records of the C7 witness. -/
def recordsC7 : List AttendanceRecord := (List.range 500).map mkAttC7

/-- A concrete student, one per index. -/
def mkStudentC7 (i : ℕ) : Student :=
  { studentId := toString i, firstName := "S", lastName := "T", dob := ""
    guardian := "G", phone := "", email := "", classId := "X", notes := "" }

/-- The 500 students of the C7 CSV-import counterexample. -/
def csvStudentsC7 : List Student := (List.range 500).map mkStudentC7

/-- Witness for the amended C7: the 500-record import splits into 450 + 50
and a failure of the second batch leaves exactly the first 450 records
committed. -/
theorem C7_bulk_batching_amended_witness :
    recordsC7.length = 500 ∧
      attendanceBatches recordsC7 = [recordsC7.take 450, recordsC7.drop 450] ∧
      (attendanceBatches recordsC7).map List.length = [450, 50] ∧
      ∀ dm, commitBatchesWithFailure dm (attendanceBatches recordsC7) 1
        = applyBatch dm (recordsC7.take 450) := by
  have hlen : recordsC7.length = 500 := by
    rw [recordsC7, List.length_map, List.length_range]
  exact ⟨hlen,
    (C7_bulk_batching_amended.2.1 recordsC7 hlen).1,
    (C7_bulk_batching_amended.2.1 recordsC7 hlen).2,
    fun dm => C7_bulk_batching_amended.2.2.1 dm recordsC7 hlen⟩

/-- Counterexample to C7 as stated: the CSV import of 500 records is NOT
split into two batches of 450 and 50 — it produces 500 independent
single-write commit units. -/
theorem C7_csv_import_not_batched_counterexample :
    (importCSVCommitUnits csvStudentsC7).length = 500 ∧
      (importCSVCommitUnits csvStudentsC7).map List.length ≠ [450, 50] := by
  have hlen : (importCSVCommitUnits csvStudentsC7).length = 500 := by
    rw [importCSVCommitUnits, List.length_map, csvStudentsC7,
      List.length_map, List.length_range]
  refine ⟨hlen, ?_⟩
  intro hcontra
  have hl := congrArg List.length hcontra
  rw [List.length_map, hlen] at hl
  simp at hl

/-! ## C9 -/

/-- The claim-side present counter: like `reportPresentCount` but counting
only records whose `sessionId` matches an existing session, per the claim
that orphaned references contribute nothing. -/
def sessionFilteredPresentCount (dm : DataModels) (studentId : String) : ℕ :=
  ((studentAttendance dm studentId).filter (fun a =>
    (a.status == AttStatus.Present || a.status == AttStatus.Late) &&
      dm.sessions.any (fun s => s.id == a.sessionId))).length

/-- The store of the C9 counterexample: one available session `s1`, and one
`Present` record for student `A1` pointing at the non-existent session
`ghost`. -/
def dmC9 : DataModels :=
  { students := [{ studentId := "A1", firstName := "Ana", lastName := "B"
                   dob := "", guardian := "G", phone := "", email := ""
                   classId := "X", notes := "" }]
    sessions := [{ id := "s1", date := "2024-01-10"
                   status := SessionStatus.Available, noClassReason := none }]
    attendance := [{ sessionId := "ghost", studentId := "A1", classId := "X"
                     status := AttStatus.Present }]
    assessments := []
    scores := []
    classes := [] }

/-- Counterexample to C9 as stated: the student-report attendance
percentage counts an orphaned `Present` record (a `sessionId` matching no
session), yielding 100% where the claim's only-existing-sessions counter
yields 0%. -/
theorem C9_orphans_counted_counterexample :
    reportPresentCount dmC9 "A1" = 1 ∧
      sessionFilteredPresentCount dmC9 "A1" = 0 ∧
      reportAttendancePercentage dmC9 "A1" = 100 ∧
      reportAttendancePercentage dmC9 "A1"
        ≠ jsRound ((sessionFilteredPresentCount dmC9 "A1" : ℚ) /
            (availableSessions dmC9).length * 100) := by
  have hc : reportPresentCount dmC9 "A1" = 1 := by decide
  have hf : sessionFilteredPresentCount dmC9 "A1" = 0 := by decide
  have hlen : (availableSessions dmC9).length = 1 := by decide
  have hpct : reportAttendancePercentage dmC9 "A1" = 100 := by
    unfold reportAttendancePercentage
    rw [hlen, hc]
    norm_num [jsRound]
  refine ⟨hc, hf, hpct, ?_⟩
  rw [hpct, hf, hlen]
  norm_num [jsRound]

/-- C9 (amended): the student dashboard's fetch joins do filter orphaned
references — every fetched attendance row is backed by an existing session
and every fetched score row by an existing assessment — but the admin-side
per-student attendance percentage does not: its present counter counts a
`Present`/`Late` record of the student whether or not the record's
`sessionId` matches an existing session. -/
theorem C9_orphan_filtering_amended :
    (∀ (dm : DataModels) (studentId : String),
        ∀ m ∈ fetchAttendance dm studentId,
          ∃ s ∈ dm.sessions, s.id = m.sessionId ∧ s.date = m.date)
    ∧ (∀ (dm : DataModels) (studentId : String),
        ∀ f ∈ fetchScores dm studentId,
          ∃ a ∈ dm.assessments, a.name = f.assessmentName ∧
            a.date = f.date ∧ a.totalMarks = f.totalMarks)
    ∧ (∀ (dm : DataModels) (r : AttendanceRecord) (studentId : String),
        r.studentId = studentId →
        (r.status = AttStatus.Present ∨ r.status = AttStatus.Late) →
        reportPresentCount (addAttendance dm r) studentId
          = reportPresentCount dm studentId + 1) := by
  refine ⟨?_, ?_, reportPresentCount_addAttendance⟩
  · intro dm studentId m hm
    unfold fetchAttendance at hm
    rcases List.mem_filterMap.mp hm with ⟨a, _, hsome⟩
    rcases Option.map_eq_some'.mp hsome with ⟨sess, hfind, hmk⟩
    refine ⟨sess, List.mem_of_find?_eq_some hfind, ?_, ?_⟩
    · have hid := List.find?_some hfind
      rw [← hmk]
      exact eq_of_beq hid
    · rw [← hmk]
  · intro dm studentId f hf
    unfold fetchScores at hf
    rcases List.mem_filterMap.mp hf with ⟨s, _, hsome⟩
    rcases Option.map_eq_some'.mp hsome with ⟨a, hfind, hmk⟩
    exact ⟨a, List.mem_of_find?_eq_some hfind,
      by rw [← hmk], by rw [← hmk], by rw [← hmk]⟩

/-- The orphaned record added by the C9 witness. -/
def recC9 : AttendanceRecord :=
  { sessionId := "ghost2", studentId := "A1", classId := "X"
    status := AttStatus.Present }

/-- Witness for the amended C9: at the concrete store, the fetched rows are
all session-backed, and adding an orphaned `Present` record still increments
the report counter. -/
theorem C9_orphan_filtering_amended_witness :
    recC9.studentId = "A1" ∧ recC9.status = AttStatus.Present ∧
      reportPresentCount (addAttendance dmC9 recC9) "A1"
        = reportPresentCount dmC9 "A1" + 1 ∧
      (∀ m ∈ fetchAttendance dmC9 "A1",
        ∃ s ∈ dmC9.sessions, s.id = m.sessionId ∧ s.date = m.date) :=
  ⟨by decide, by decide,
   C9_orphan_filtering_amended.2.2 dmC9 recC9 "A1" (by decide)
     (Or.inl (by decide)),
   C9_orphan_filtering_amended.1 dmC9 "A1"⟩

/-! ## C3 -/

/-- Sortedness of the modelled `Array.sort` under the numeric-aware
comparator lifted through a key function. -/
theorem jsSort_sorted_key {α : Type} (key : α → String) (l : List α) :
    (jsSort (fun a b => idLe (key a) (key b)) l).Pairwise
      (fun a b => idLe (key a) (key b) = true) :=
  List.sorted_mergeSort
    (fun a b c hab hbc => idLe_trans (key a) (key b) (key c) hab hbc)
    (fun a b => by rcases idLe_total (key a) (key b) with h | h <;> simp [h])
    l

/-- The rows the day-wise report is built from: every student paired with
the status shown for them. -/
def daywiseRows (dm : DataModels) (sessionId : String) : List DaywiseRow :=
  dm.students.map (fun stu =>
    { student := stu, status := cellStatus dm sessionId stu.studentId })

theorem daywiseReport_eq (dm : DataModels) (sessionId : String) :
    daywiseReport dm sessionId =
      (jsSort (fun a b => idLe a.student.studentId b.student.studentId)
        ((daywiseRows dm sessionId).filter (fun r => r.status == AttStatus.Present)),
       jsSort (fun a b => idLe a.student.studentId b.student.studentId)
        ((daywiseRows dm sessionId).filter (fun r => !(r.status == AttStatus.Present)))) :=
  rfl

/-- Membership in the day-wise rows determines the status: a row carries
exactly the displayed status of its student. -/
theorem daywiseRows_mem (dm : DataModels) (sessionId : String)
    (stu : Student) (st : AttStatus)
    (h : ({ student := stu, status := st } : DaywiseRow) ∈ daywiseRows dm sessionId) :
    stu ∈ dm.students ∧ st = cellStatus dm sessionId stu.studentId := by
  rcases List.mem_map.mp h with ⟨s, hs, heq⟩
  have h1 : s = stu := congrArg DaywiseRow.student heq
  have h2 : cellStatus dm sessionId s.studentId = st := congrArg DaywiseRow.status heq
  subst h1
  exact ⟨hs, h2.symm⟩

/-- C3: the day-wise report is a strict partition of the students: the two
buckets together are a permutation of one row per student (with status
defaulting to `Absent` when no record exists), so their sizes add up to the
number of students; the first bucket holds exactly the `Present` rows, the
second all others with their true status; every student lands in exactly
one bucket; and both buckets are sorted by numeric-aware student id. -/
theorem C3_daywise_report_strict_partition (dm : DataModels) (sessionId : String) :
    ((daywiseReport dm sessionId).1 ++ (daywiseReport dm sessionId).2).Perm
        (daywiseRows dm sessionId)
    ∧ (daywiseReport dm sessionId).1.length + (daywiseReport dm sessionId).2.length
        = dm.students.length
    ∧ (∀ r ∈ (daywiseReport dm sessionId).1, r.status = AttStatus.Present)
    ∧ (∀ r ∈ (daywiseReport dm sessionId).2, r.status ≠ AttStatus.Present)
    ∧ (∀ stu ∈ dm.students,
        (cellStatus dm sessionId stu.studentId = AttStatus.Present →
          ({ student := stu, status := AttStatus.Present } : DaywiseRow)
              ∈ (daywiseReport dm sessionId).1 ∧
            ∀ st, ({ student := stu, status := st } : DaywiseRow)
              ∉ (daywiseReport dm sessionId).2)
        ∧ (cellStatus dm sessionId stu.studentId ≠ AttStatus.Present →
          ({ student := stu, status := cellStatus dm sessionId stu.studentId } : DaywiseRow)
              ∈ (daywiseReport dm sessionId).2 ∧
            ∀ st, ({ student := stu, status := st } : DaywiseRow)
              ∉ (daywiseReport dm sessionId).1))
    ∧ (daywiseReport dm sessionId).1.Pairwise
        (fun a b => idLe a.student.studentId b.student.studentId = true)
    ∧ (daywiseReport dm sessionId).2.Pairwise
        (fun a b => idLe a.student.studentId b.student.studentId = true) := by
  rw [daywiseReport_eq]
  set rows := daywiseRows dm sessionId with hrows
  have hperm : (jsSort (fun a b => idLe a.student.studentId b.student.studentId)
        (rows.filter (fun r => r.status == AttStatus.Present)) ++
      jsSort (fun a b => idLe a.student.studentId b.student.studentId)
        (rows.filter (fun r => !(r.status == AttStatus.Present)))).Perm rows := by
    refine List.Perm.trans
      (List.Perm.append (jsSort_perm _ _) (jsSort_perm _ _)) ?_
    exact List.filter_append_perm _ rows
  refine ⟨hperm, ?_, ?_, ?_, ?_, ?_, ?_⟩
  · have h1 := hperm.length_eq
    rw [List.length_append] at h1
    rw [h1, hrows]
    exact List.length_map _ _
  · intro r hr
    have hr2 := ((jsSort_perm _ _).mem_iff).mp hr
    have := List.of_mem_filter hr2
    exact eq_of_beq this
  · intro r hr
    have hr2 := ((jsSort_perm _ _).mem_iff).mp hr
    have := List.of_mem_filter hr2
    intro hcontra
    simp [hcontra] at this
  · intro stu hstu
    constructor
    · intro hcell
      constructor
      · apply ((jsSort_perm _ _).mem_iff).mpr
        apply List.mem_filter.mpr
        refine ⟨?_, by simp⟩
        rw [hrows]
        refine List.mem_map.mpr ⟨stu, hstu, ?_⟩
        rw [hcell]
      · intro st hcontra
        have hmem := ((jsSort_perm _ _).mem_iff).mp hcontra
        have hpred := List.of_mem_filter hmem
        have hmem2 := List.mem_of_mem_filter hmem
        have hst := (daywiseRows_mem dm sessionId stu st hmem2).2
        rw [hst, hcell] at hpred
        simp at hpred
    · intro hcell
      constructor
      · apply ((jsSort_perm _ _).mem_iff).mpr
        apply List.mem_filter.mpr
        refine ⟨?_, by simp [hcell]⟩
        rw [hrows]
        exact List.mem_map.mpr ⟨stu, hstu, rfl⟩
      · intro st hcontra
        have hmem := ((jsSort_perm _ _).mem_iff).mp hcontra
        have hpred := List.of_mem_filter hmem
        have hmem2 := List.mem_of_mem_filter hmem
        have hst := (daywiseRows_mem dm sessionId stu st hmem2).2
        rw [hst] at hpred
        exact hcell (eq_of_beq hpred)
  · exact jsSort_sorted_key (fun r : DaywiseRow => r.student.studentId) _
  · exact jsSort_sorted_key (fun r : DaywiseRow => r.student.studentId) _

/-- The store of the C3 witness: three students A (Present), B (no record),
C (Late) for the selected session. -/
def dmC3 : DataModels :=
  { students := [{ studentId := "A", firstName := "Ana", lastName := "X"
                   dob := "", guardian := "G", phone := "", email := ""
                   classId := "X", notes := "" },
                 { studentId := "B", firstName := "Bo", lastName := "Y"
                   dob := "", guardian := "G", phone := "", email := ""
                   classId := "X", notes := "" },
                 { studentId := "C", firstName := "Cy", lastName := "Z"
                   dob := "", guardian := "G", phone := "", email := ""
                   classId := "X", notes := "" }]
    sessions := [{ id := "s1", date := "2024-01-10"
                   status := SessionStatus.Available, noClassReason := none }]
    attendance := [{ sessionId := "s1", studentId := "A", classId := "X"
                     status := AttStatus.Present },
                   { sessionId := "s1", studentId := "C", classId := "X"
                     status := AttStatus.Late }]
    assessments := []
    scores := []
    classes := [] }

/-- Witness for C3 at a concrete session with Present/missing/Late students. -/
theorem C3_daywise_report_strict_partition_witness :
    (daywiseReport dmC3 "s1").1.length + (daywiseReport dmC3 "s1").2.length
        = dmC3.students.length
    ∧ (∀ r ∈ (daywiseReport dmC3 "s1").1, r.status = AttStatus.Present)
    ∧ (∀ r ∈ (daywiseReport dmC3 "s1").2, r.status ≠ AttStatus.Present) :=
  ⟨(C3_daywise_report_strict_partition dmC3 "s1").2.1,
   (C3_daywise_report_strict_partition dmC3 "s1").2.2.1,
   (C3_daywise_report_strict_partition dmC3 "s1").2.2.2.1⟩

/-! ## C1 -/

/-- The claim-side counter `presentOrLate(S)`: the number of `Available`
sessions for which an attendance record of the student with status
`Present` or `Late` exists. -/
def presentOrLateSessions (dm : DataModels) (studentId : String) : ℕ :=
  ((availableSessions dm).filter (fun sess =>
    decide (∃ a ∈ dm.attendance, a.sessionId = sess.id ∧ a.studentId = studentId ∧
      (a.status = AttStatus.Present ∨ a.status = AttStatus.Late)))).length

/-- Two attendance records with the same composite key
`sessionId_studentId` are the same record (the store keys documents by the
composite key, so the mirror holds at most one record per key). -/
theorem attendance_unique_eq {dm : DataModels}
    (hu : dm.attendance.Pairwise (fun a b =>
      ¬(a.sessionId = b.sessionId ∧ a.studentId = b.studentId)))
    {a b : AttendanceRecord} (ha : a ∈ dm.attendance) (hb : b ∈ dm.attendance)
    (hk : a.sessionId = b.sessionId ∧ a.studentId = b.studentId) : a = b := by
  by_contra hne
  have hsym : Symmetric (fun a b : AttendanceRecord =>
      ¬(a.sessionId = b.sessionId ∧ a.studentId = b.studentId)) := by
    intro x y hxy hk2
    exact hxy ⟨hk2.1.symm, hk2.2.symm⟩
  exact (List.Pairwise.forall hsym hu ha hb hne) hk

/-- Under composite-key uniqueness, the found-record cell is `Present` or
`Late` exactly when a `Present`/`Late` record for the pair exists. -/
theorem cellStatus_presentOrLate_iff (dm : DataModels)
    (sessionId studentId : String)
    (hu : dm.attendance.Pairwise (fun a b =>
      ¬(a.sessionId = b.sessionId ∧ a.studentId = b.studentId))) :
    (cellStatus dm sessionId studentId = AttStatus.Present ∨
        cellStatus dm sessionId studentId = AttStatus.Late)
      ↔ ∃ a ∈ dm.attendance, a.sessionId = sessionId ∧ a.studentId = studentId ∧
          (a.status = AttStatus.Present ∨ a.status = AttStatus.Late) := by
  unfold cellStatus findRecord
  constructor
  · intro h
    cases hfind : dm.attendance.find?
        (fun a => a.sessionId == sessionId && a.studentId == studentId) with
    | none =>
        rw [hfind] at h
        rcases h with h | h <;> cases h
    | some r =>
        rw [hfind] at h
        have hpred := List.find?_some hfind
        simp only [Bool.and_eq_true, beq_iff_eq] at hpred
        exact ⟨r, List.mem_of_find?_eq_some hfind, hpred.1, hpred.2, h⟩
  · rintro ⟨a, hmem, hsid, hstid, hst⟩
    have hpred : (a.sessionId == sessionId && a.studentId == studentId) = true := by
      simp [hsid, hstid]
    cases hfind : dm.attendance.find?
        (fun x => x.sessionId == sessionId && x.studentId == studentId) with
    | none =>
        have := List.find?_eq_none.mp hfind a hmem
        exact absurd hpred this
    | some r =>
        have hpredr := List.find?_some hfind
        simp only [Bool.and_eq_true, beq_iff_eq] at hpredr
        have hra : r = a :=
          attendance_unique_eq hu (List.mem_of_find?_eq_some hfind) hmem
            ⟨hpredr.1.trans hsid.symm, hpredr.2.trans hstid.symm⟩
        rw [hra]
        exact hst

/-- The trailing percentage of a row of the overall matrix equals the
claim's `round(presentOrLate(S) / |Available sessions| * 100)`. -/
theorem overallRow_percentage (dm : DataModels)
    (hu : dm.attendance.Pairwise (fun a b =>
      ¬(a.sessionId = b.sessionId ∧ a.studentId = b.studentId)))
    (stu : Student) :
    (overallRow dm (overallSessions dm) stu).percentage
      = jsRound ((presentOrLateSessions dm stu.studentId : ℚ)
          / (availableSessions dm).length * 100) := by
  unfold overallRow
  have hlen : (overallSessions dm).length = (availableSessions dm).length :=
    (jsSort_perm _ _).length_eq
  have hcount :
      (((overallSessions dm).map
          (fun s => cellStatus dm s.id stu.studentId)).filter
        (fun st => st == AttStatus.Present || st == AttStatus.Late)).length
        = presentOrLateSessions dm stu.studentId := by
    rw [List.filter_map, List.length_map]
    unfold presentOrLateSessions
    have hpointwise : ∀ sess ∈ overallSessions dm,
        ((fun st => st == AttStatus.Present || st == AttStatus.Late) ∘
          (fun s => cellStatus dm s.id stu.studentId)) sess
        = decide (∃ a ∈ dm.attendance, a.sessionId = sess.id ∧
            a.studentId = stu.studentId ∧
            (a.status = AttStatus.Present ∨ a.status = AttStatus.Late)) := by
      intro sess _
      rw [Bool.eq_iff_iff]
      simp only [Function.comp_apply, Bool.or_eq_true, beq_iff_eq,
        decide_eq_true_eq]
      exact cellStatus_presentOrLate_iff dm sess.id stu.studentId hu
    rw [List.filter_congr hpointwise]
    exact ((jsSort_perm dateLe (availableSessions dm)).filter _).length_eq
  simp only [hcount, hlen]

/-- C1: when the overall attendance matrix is produced (some `Available`
session and some student exist), its trailing percentage column for every
student row equals `round(presentOrLate(S) / |Available sessions| * 100)`
where `presentOrLate(S)` counts the `Available` sessions having a
`Present`/`Late` record of the student; its columns are all `Available`
sessions sorted by date ascending; its rows are all students sorted by
numeric-aware student id; and every cell is the recorded status of the
(session, student) pair defaulting to `Absent`. The attendance mirror is
assumed to hold at most one record per composite key, which is what the
store's `sessionId_studentId` document key guarantees. -/
theorem C1_overall_matrix_percentages_and_order (dm : DataModels)
    (h1 : (availableSessions dm).length ≠ 0)
    (h2 : dm.students.length ≠ 0)
    (hu : dm.attendance.Pairwise (fun a b =>
      ¬(a.sessionId = b.sessionId ∧ a.studentId = b.studentId))) :
    (generateOverallAttendanceReport dm).isSome = true
    ∧ ∀ rpt, generateOverallAttendanceReport dm = some rpt →
        (∀ row ∈ rpt.rows, row.percentage
            = jsRound ((presentOrLateSessions dm row.studentId : ℚ)
                / (availableSessions dm).length * 100))
        ∧ rpt.columns.Perm (availableSessions dm)
        ∧ rpt.columns.Pairwise (fun a b => dateNum a.date ≤ dateNum b.date)
        ∧ (rpt.rows.map OverallRow.studentId).Perm
            (dm.students.map Student.studentId)
        ∧ (rpt.rows.map OverallRow.studentId).Pairwise
            (fun a b => idLe a b = true)
        ∧ ∀ row ∈ rpt.rows, row.cells
            = rpt.columns.map (fun s => cellStatus dm s.id row.studentId) := by
  have hslen : (overallSessions dm).length = (availableSessions dm).length :=
    (jsSort_perm _ _).length_eq
  have hstlen : (overallStudents dm).length = dm.students.length :=
    (jsSort_perm _ _).length_eq
  have hcond : ¬((overallSessions dm).length = 0 ∨ (overallStudents dm).length = 0) := by
    rw [hslen, hstlen]
    rintro (h | h)
    · exact h1 h
    · exact h2 h
  have hgen : generateOverallAttendanceReport dm = some
      { totalStudents := (overallStudents dm).length
        totalSessions := (overallSessions dm).length
        classAverage :=
          if 0 < (overallStudents dm).length * (overallSessions dm).length then
            jsRound ((totalPresentCount dm (overallStudents dm) (overallSessions dm) : ℚ)
              / (((overallStudents dm).length * (overallSessions dm).length : ℕ) : ℚ) * 100)
          else 0
        columns := overallSessions dm
        rows := (overallStudents dm).map (overallRow dm (overallSessions dm)) } := by
    unfold generateOverallAttendanceReport
    rw [if_neg hcond]
  refine ⟨by rw [hgen]; rfl, ?_⟩
  intro rpt hrpt
  rw [hgen] at hrpt
  have hrpt2 := (Option.some.injEq _ _).mp hrpt
  subst hrpt2
  refine ⟨?_, ?_, ?_, ?_, ?_, ?_⟩
  · intro row hrow
    rcases List.mem_map.mp hrow with ⟨stu, _, rfl⟩
    exact overallRow_percentage dm hu stu
  · exact jsSort_perm _ _
  · have hsorted := @List.sorted_mergeSort Session dateLe
      (fun a b c hab hbc => by
        simp only [dateLe, decide_eq_true_eq] at *
        omega)
      (fun a b => by
        simp only [dateLe]
        rcases Nat.le_total (dateNum a.date) (dateNum b.date) with h | h <;> simp [h])
      (availableSessions dm)
    exact hsorted.imp (fun hab => by
      simpa only [dateLe, decide_eq_true_eq] using hab)
  · rw [List.map_map]
    have : (OverallRow.studentId ∘ overallRow dm (overallSessions dm))
        = Student.studentId := rfl
    rw [this]
    exact (jsSort_perm _ _).map Student.studentId
  · rw [List.map_map]
    have hcomp : (OverallRow.studentId ∘ overallRow dm (overallSessions dm))
        = Student.studentId := rfl
    rw [hcomp]
    rw [List.pairwise_map]
    exact jsSort_sorted_key Student.studentId dm.students
  · intro row hrow
    rcases List.mem_map.mp hrow with ⟨stu, _, rfl⟩
    rfl

/-- The store of the C1 witness: two students (given out of order), one
available session, one `Present` record. -/
def dmC1 : DataModels :=
  { students := [{ studentId := "S10", firstName := "Bo", lastName := "Y"
                   dob := "", guardian := "G", phone := "", email := ""
                   classId := "X", notes := "" },
                 { studentId := "S2", firstName := "Ana", lastName := "Z"
                   dob := "", guardian := "G", phone := "", email := ""
                   classId := "X", notes := "" }]
    sessions := [{ id := "s1", date := "2024-01-10"
                   status := SessionStatus.Available, noClassReason := none }]
    attendance := [{ sessionId := "s1", studentId := "S2", classId := "X"
                     status := AttStatus.Present }]
    assessments := []
    scores := []
    classes := [] }

/-- Witness for C1 at a concrete store. -/
theorem C1_overall_matrix_percentages_and_order_witness :
    (availableSessions dmC1).length ≠ 0 ∧ dmC1.students.length ≠ 0 ∧
      (generateOverallAttendanceReport dmC1).isSome = true ∧
      ∀ rpt, generateOverallAttendanceReport dmC1 = some rpt →
        ∀ row ∈ rpt.rows, row.percentage
          = jsRound ((presentOrLateSessions dmC1 row.studentId : ℚ)
              / (availableSessions dmC1).length * 100) :=
  ⟨by decide, by decide,
   (C1_overall_matrix_percentages_and_order dmC1 (by decide) (by decide)
      (List.pairwise_singleton _ _)).1,
   fun rpt hrpt =>
     ((C1_overall_matrix_percentages_and_order dmC1 (by decide) (by decide)
        (List.pairwise_singleton _ _)).2 rpt hrpt).1⟩

/-! ## C4 -/

/-- `totalPresentCount` only depends on the student and session lists up to
permutation. -/
theorem totalPresentCount_perm (dm : DataModels)
    {st1 st2 : List Student} (hst : st1.Perm st2)
    {se1 se2 : List Session} (hse : se1.Perm se2) :
    totalPresentCount dm st1 se1 = totalPresentCount dm st2 se2 := by
  unfold totalPresentCount
  have hcounts : ∀ stu : Student,
      (se1.filter (fun sess => slotPresent dm sess stu)).length
        = (se2.filter (fun sess => slotPresent dm sess stu)).length :=
    fun stu => (hse.filter _).length_eq
  calc (st1.map (fun stu =>
          (se1.filter (fun sess => slotPresent dm sess stu)).length)).sum
      = (st1.map (fun stu =>
          (se2.filter (fun sess => slotPresent dm sess stu)).length)).sum := by
        simp only [hcounts]
    _ = (st2.map (fun stu =>
          (se2.filter (fun sess => slotPresent dm sess stu)).length)).sum :=
        (hst.map _).sum_eq

/-- The student in class `X` of the C4 store. -/
def stuC4A : Student :=
  { studentId := "A", firstName := "Ana", lastName := "P", dob := ""
    guardian := "G", phone := "", email := "", classId := "X", notes := "" }

/-- The student in class `Y` of the C4 store. -/
def stuC4B : Student :=
  { studentId := "B", firstName := "Bo", lastName := "Q", dob := ""
    guardian := "G", phone := "", email := "", classId := "Y", notes := "" }

/-- The analytics class charted in the C4 difference. -/
def clsC4 : SchoolClass := { id := "X", name := "Class X" }

/-- The C4 store: class `X` holds the always-present student `A`, class `Y`
the always-absent student `B`, over one available session. -/
def dmC4 : DataModels :=
  { students := [stuC4A, stuC4B]
    sessions := [{ id := "s1", date := "2024-01-10"
                   status := SessionStatus.Available, noClassReason := none }]
    attendance := [{ sessionId := "s1", studentId := "A", classId := "X"
                     status := AttStatus.Present }]
    assessments := []
    scores := []
    classes := [clsC4, { id := "Y", name := "Class Y" }] }

/-- C4: the analytics class-average attendance is the rounded arithmetic
mean of the class students' individual (exact) attendance percentages,
while the overall matrix's class-average stat is the pooled ratio
`round(totalPresent / (students × sessions) * 100)`; on the concrete store
`dmC4` (uneven attendance across two classes) the analytics bar of class X
is 100 while the matrix class average is 50, so the two computations
genuinely differ and both behaviors are present. -/
theorem C4_mean_of_percentages_vs_pooled :
    (∀ (dm : DataModels) (cls : SchoolClass),
        0 < (availableSessions dm).length →
        0 < (dm.students.filter (fun s => s.classId == cls.id)).length →
        classAttendanceDatum dm cls
          = jsRound (((dm.students.filter (fun s => s.classId == cls.id)).map
              (fun stu => (allPresentLateCount dm stu.studentId : ℚ)
                / (availableSessions dm).length * 100)).sum
              / (dm.students.filter (fun s => s.classId == cls.id)).length))
    ∧ (∀ (dm : DataModels) (rpt : OverallReport),
        generateOverallAttendanceReport dm = some rpt →
        rpt.classAverage
          = jsRound ((totalPresentCount dm (overallStudents dm) (overallSessions dm) : ℚ)
              / ((dm.students.length * (availableSessions dm).length : ℕ) : ℚ) * 100))
    ∧ (∃ rpt, generateOverallAttendanceReport dmC4 = some rpt ∧
        classAttendanceDatum dmC4 clsC4 = 100 ∧ rpt.classAverage = 50 ∧
        classAttendanceDatum dmC4 clsC4 ≠ rpt.classAverage) := by
  have hpart1 : ∀ (dm : DataModels) (cls : SchoolClass),
      0 < (availableSessions dm).length →
      0 < (dm.students.filter (fun s => s.classId == cls.id)).length →
      classAttendanceDatum dm cls
        = jsRound (((dm.students.filter (fun s => s.classId == cls.id)).map
            (fun stu => (allPresentLateCount dm stu.studentId : ℚ)
              / (availableSessions dm).length * 100)).sum
            / (dm.students.filter (fun s => s.classId == cls.id)).length) := by
    intro dm cls _h1 h2
    unfold classAttendanceDatum
    rw [if_neg (Nat.pos_iff_ne_zero.mp h2)]
  have hpart2 : ∀ (dm : DataModels) (rpt : OverallReport),
      generateOverallAttendanceReport dm = some rpt →
      rpt.classAverage
        = jsRound ((totalPresentCount dm (overallStudents dm) (overallSessions dm) : ℚ)
            / ((dm.students.length * (availableSessions dm).length : ℕ) : ℚ) * 100) := by
    intro dm rpt hrpt
    unfold generateOverallAttendanceReport at hrpt
    by_cases hcond : (overallSessions dm).length = 0 ∨ (overallStudents dm).length = 0
    · rw [if_pos hcond] at hrpt
      cases hrpt
    · rw [if_neg hcond] at hrpt
      have hrpt2 := (Option.some.injEq _ _).mp hrpt
      have hslen : (overallSessions dm).length = (availableSessions dm).length :=
        (jsSort_perm _ _).length_eq
      have hstlen : (overallStudents dm).length = dm.students.length :=
        (jsSort_perm _ _).length_eq
      have hpos : 0 < dm.students.length * (availableSessions dm).length := by
        rw [← hslen, ← hstlen]
        exact Nat.mul_pos
          (Nat.pos_of_ne_zero (fun h => hcond (Or.inr h)))
          (Nat.pos_of_ne_zero (fun h => hcond (Or.inl h)))
      rw [← hrpt2]
      simp only [hslen, hstlen]
      rw [if_pos hpos]
  refine ⟨hpart1, hpart2, ?_⟩
  have hallA : allPresentLateCount dmC4 "A" = 1 := by decide
  have havlen : (availableSessions dmC4).length = 1 := by decide
  have hfilterX : dmC4.students.filter (fun s => s.classId == clsC4.id) = [stuC4A] := by
    decide
  have hdatum : classAttendanceDatum dmC4 clsC4 = 100 := by
    rw [hpart1 dmC4 clsC4 (by decide) (by rw [hfilterX]; decide)]
    rw [hfilterX, havlen]
    simp only [List.map_cons, List.map_nil, List.sum_cons, List.sum_nil,
      List.length_cons, List.length_nil]
    rw [show stuC4A.studentId = "A" from rfl, hallA]
    norm_num [jsRound]
  have hslen : (overallSessions dmC4).length = 1 :=
    ((jsSort_perm dateLe (availableSessions dmC4)).length_eq).trans (by decide)
  have hstlen : (overallStudents dmC4).length = 2 :=
    ((jsSort_perm (fun a b : Student => idLe a.studentId b.studentId)
        dmC4.students).length_eq).trans (by decide)
  have hstudlen : dmC4.students.length = 2 := by decide
  have hcond : ¬((overallSessions dmC4).length = 0 ∨ (overallStudents dmC4).length = 0) := by
    rw [hslen, hstlen]
    rintro (h | h) <;> cases h
  have hgen : (generateOverallAttendanceReport dmC4).isSome = true := by
    unfold generateOverallAttendanceReport
    rw [if_neg hcond]
    rfl
  cases hrptEq : generateOverallAttendanceReport dmC4 with
  | none => rw [hrptEq] at hgen; cases hgen
  | some rpt =>
      have htp : totalPresentCount dmC4 dmC4.students (availableSessions dmC4) = 1 := by
        decide
      have hperm : totalPresentCount dmC4 (overallStudents dmC4) (overallSessions dmC4)
          = 1 := by
        have hp := totalPresentCount_perm dmC4
          (jsSort_perm (fun a b : Student => idLe a.studentId b.studentId) dmC4.students)
          (jsSort_perm dateLe (availableSessions dmC4))
        exact hp.trans htp
      have havg : rpt.classAverage = 50 := by
        rw [hpart2 dmC4 rpt hrptEq, hperm, havlen, hstudlen]
        norm_num [jsRound]
      refine ⟨rpt, rfl, hdatum, havg, ?_⟩
      rw [hdatum, havg]
      intro hcontra
      cases hcontra

/-- Witness for C4: the analytics formula applied at the concrete store. -/
theorem C4_mean_of_percentages_vs_pooled_witness :
    0 < (availableSessions dmC4).length ∧
      0 < (dmC4.students.filter (fun s => s.classId == clsC4.id)).length ∧
      classAttendanceDatum dmC4 clsC4
        = jsRound (((dmC4.students.filter (fun s => s.classId == clsC4.id)).map
            (fun stu => (allPresentLateCount dmC4 stu.studentId : ℚ)
              / (availableSessions dmC4).length * 100)).sum
            / (dmC4.students.filter (fun s => s.classId == clsC4.id)).length) :=
  ⟨by decide, by decide,
   C4_mean_of_percentages_vs_pooled.1 dmC4 clsC4 (by decide) (by decide)⟩

end CSM


